import Mathlib

/-!
Shallow embedding of the calculation core of the InterestRateSwaps dashboards.

The four Python files each define a handful of pure numeric functions; the
dashboards around them are UI glue. We embed those functions over `ℚ`
(exact rational arithmetic as the idealisation of Python floats) and, for the
compounding round-trip laws that need real powers and exponentials, over `ℝ`.
Python failures (uncaught `ZeroDivisionError`, `IndexError`, and the caught
solver `RuntimeError`) are modelled by `Option`/`Except` as appropriate.
-/

/-! ### File 1: FV, PV, discount factor and bond valuation dashboard -/

/-- Python `future_value(PV, r, m, T) = PV * (1 + r / m) ** (T * m)` with
discrete compounding; the exponent `T * m` is a float, modelled with `Real.rpow`. -/
noncomputable def future_value (PV r m T : ℝ) : ℝ :=
  PV * (1 + r / m) ^ (T * m)

/-- Python `future_value_continuous(PV, r, T) = PV * math.exp(r * T)`. -/
noncomputable def future_value_continuous (PV r T : ℝ) : ℝ :=
  PV * Real.exp (r * T)

/-- Python `future_value_simple(PV, r, T) = PV * (1 + r * T)`. -/
noncomputable def future_value_simple (PV r T : ℝ) : ℝ :=
  PV * (1 + r * T)

/-- Python `present_value(FV, r, m, T) = FV / (1 + r / m) ** (T * m)` with
discrete compounding. -/
noncomputable def present_value (FV r m T : ℝ) : ℝ :=
  FV / (1 + r / m) ^ (T * m)

/-- Modelled from the spec: the repository has no `present_value_continuous`
in its source (only the future-value variant); section 4.1 of the spec gives the
continuous discount factor `e^(-rate*T)` and section 4.3 makes present value the
single-cash-flow case `amount * discount_factor`. -/
noncomputable def present_value_continuous (FV r T : ℝ) : ℝ :=
  FV * Real.exp (-(r * T))

/-- Modelled from the spec: the repository has no `present_value_simple` in its
source (only the future-value variant); section 4.1 of the spec gives the simple
discount factor `1 / (1 + rate*T)` and section 4.3 makes present value the
single-cash-flow case `amount * discount_factor`. -/
noncomputable def present_value_simple (FV r T : ℝ) : ℝ :=
  FV * (1 / (1 + r * T))

/-- Truncation toward zero, the behaviour of Python `int()` on a number. -/
def pyInt (q : ℚ) : ℤ :=
  if 0 ≤ q then ⌊q⌋ else -⌊-q⌋

/-- Python `bond_valuation(coupon, face_value, r, m, T)` (file 1):
`periods = int(T * m)`; `coupon_payment = coupon * face_value / m`;
`cash_flows = [coupon_payment] * periods` with `cash_flows[-1] += face_value`;
`PV = sum(cf * discount_factor(r, m, times[i]))` where `times[i] = (i+1)/m`,
so the discount factor at `times[i]` is `(1 + r/m) ^ (-(i+1))`, written here
with the natural exponent `i + 1`. Returns `(PV, cash_flows)`.
`none` models the Python failure when `periods <= 0`: `cash_flows` is then the
empty list (a negative repetition count also yields `[]`) and
`cash_flows[-1] += face_value` raises `IndexError`; when `m = 0` the division
raises `ZeroDivisionError`, and `int(T * 0) = 0 <= 0` covers that case too. -/
def bond_valuation (coupon face_value r : ℚ) (m : ℕ) (T : ℚ) : Option (ℚ × List ℚ) :=
  let periods : ℤ := pyInt (T * m)
  if periods ≤ 0 then none
  else
    let n : ℕ := periods.toNat
    let coupon_payment : ℚ := coupon * face_value / m
    let cash_flows : List ℚ :=
      List.replicate (n - 1) coupon_payment ++ [coupon_payment + face_value]
    let PV : ℚ := ∑ i ∈ Finset.range n, cash_flows.getD i 0 / (1 + r / m) ^ (i + 1)
    some (PV, cash_flows)

/-! ### File 2: bond valuation dashboard (price, YTM, accrued interest) -/

/-- Python `bond_price(face_value, coupon_rate, ytm, years_to_maturity,
comp_per_year)` (file 2): `periods = years_to_maturity * comp_per_year` (an
integer, as required by `range`), `coupon = face_value * coupon_rate /
comp_per_year`, then the loop over `t in range(1, periods + 1)` accumulating
`coupon / (1 + ytm / comp_per_year) ** t`, plus the face value discounted over
`periods`. -/
def bond_price (face_value coupon_rate ytm : ℚ) (years_to_maturity comp_per_year : ℕ) : ℚ :=
  let periods : ℕ := years_to_maturity * comp_per_year
  let coupon : ℚ := face_value * coupon_rate / comp_per_year
  (∑ t ∈ Finset.range periods, coupon / (1 + ytm / comp_per_year) ^ (t + 1))
    + face_value / (1 + ytm / comp_per_year) ^ periods

/-- Failure modes of the scipy secant solver used by `calculate_ytm`:
a flat secant (`q1 == q0` with distinct points, reported by scipy as a zero
derivative) or exhaustion of `maxiter` iterations. -/
inductive SolverError
  | zeroDerivative
  | maxIterations
deriving DecidableEq

/-- The scipy default absolute tolerance `tol = 1.48e-8` of `newton` (the
relative tolerance defaults to `0.0`). -/
def newton_tol : ℚ := 148 / 10 ^ 10

/-- The scipy perturbation `eps = 1e-4` used to build the second starting point
of the secant iteration. -/
def secant_eps : ℚ := 1 / 10 ^ 4

/-- The main loop of `scipy.optimize.newton` without a derivative (the secant
method), with the remaining iteration count as fuel. On `q1 == q0` with
`p1 != p0` scipy raises (`disp=True`); with `p1 == p0` it breaks returning the
midpoint, unless this was the final iteration, in which case it raises.
Otherwise the secant step is taken in the numerically stabilised form scipy
uses, convergence is `|p - p1| <= tol`, and running out of iterations raises. -/
def secant_step (f : ℚ → ℚ) : ℕ → ℚ → ℚ → ℚ → ℚ → Except SolverError ℚ
  | 0, _, _, _, _ => .error .maxIterations
  | fuel + 1, p0, p1, q0, q1 =>
    if q1 = q0 then
      if p1 ≠ p0 then .error .zeroDerivative
      else if fuel = 0 then .error .maxIterations
      else .ok ((p1 + p0) / 2)
    else
      let p := if |q1| > |q0| then (-q0 / q1 * p1 + p0) / (1 - q0 / q1)
               else (-q1 / q0 * p0 + p1) / (1 - q1 / q0)
      if |p - p1| ≤ newton_tol then .ok p
      else secant_step f fuel p1 p q1 (f p)

/-- `scipy.optimize.newton(func, x0, maxiter)` without `fprime`: the second
starting point is `p1 = x0 * (1 + eps)` plus `eps` if that is nonnegative and
minus `eps` otherwise; the points are swapped when `|f(p1)| < |f(p0)|`; then
the secant loop runs for at most `maxiter` iterations. -/
def scipy_newton (f : ℚ → ℚ) (x0 : ℚ) (maxiter : ℕ) : Except SolverError ℚ :=
  let p0 := x0
  let p1a := x0 * (1 + secant_eps)
  let p1 := if 0 ≤ p1a then p1a + secant_eps else p1a - secant_eps
  let q0 := f p0
  let q1 := f p1
  if |q1| < |q0| then secant_step f maxiter p1 p0 q1 q0
  else secant_step f maxiter p0 p1 q0 q1

/-- Python `calculate_ytm(face_value, coupon_rate, price, years_to_maturity,
comp_per_year)` (file 2): runs `newton(ytm_func, coupon_rate, maxiter=100)` on
`ytm_func(y) = bond_price(...) - price` and returns the root; the bare
`except` clause turns every solver exception into `np.nan`, modelled as
`none`. -/
def calculate_ytm (face_value coupon_rate price : ℚ) (years_to_maturity comp_per_year : ℕ) :
    Option ℚ :=
  (scipy_newton
    (fun y => bond_price face_value coupon_rate y years_to_maturity comp_per_year - price)
    coupon_rate 100).toOption

/-- Python `accrued_interest(face_value, coupon_rate, settlement_date,
last_coupon_date, next_coupon_date, comp_per_year)` (file 2), with dates as
day numbers so that `(a - b).days` is plain integer subtraction:
`days_in_period = next - last`, `days_accrued = settlement - last`,
`coupon_payment = face_value * coupon_rate / comp_per_year`, result
`coupon_payment * (days_accrued / days_in_period)`. There is no validation;
the only failures are `ZeroDivisionError` when `comp_per_year == 0` or when
`days_in_period == 0`, modelled as `none`. -/
def accrued_interest (face_value coupon_rate : ℚ)
    (settlement_date last_coupon_date next_coupon_date : ℤ) (comp_per_year : ℕ) : Option ℚ :=
  let days_in_period : ℤ := next_coupon_date - last_coupon_date
  let days_accrued : ℤ := settlement_date - last_coupon_date
  if comp_per_year = 0 then none
  else if days_in_period = 0 then none
  else some ((face_value * coupon_rate / comp_per_year)
    * ((days_accrued : ℚ) / (days_in_period : ℚ)))

/-! ### File 3: bond analytics dashboard (price, sensitivities) -/

/-- Python `calculate_bond_price(face_value, coupon_rate, ytm,
years_to_maturity, periods_per_year=2)` (file 3): `period_rate = ytm /
periods_per_year`, `n_periods = years_to_maturity * periods_per_year`,
`coupon = face_value * coupon_rate / periods_per_year`, then the same
discounted-cash-flow loop as `bond_price` in file 2. The Python default
`periods_per_year=2` corresponds to passing `2` here. -/
def calculate_bond_price (face_value coupon_rate ytm : ℚ)
    (years_to_maturity periods_per_year : ℕ) : ℚ :=
  let period_rate : ℚ := ytm / periods_per_year
  let n_periods : ℕ := years_to_maturity * periods_per_year
  let coupon : ℚ := face_value * coupon_rate / periods_per_year
  (∑ t ∈ Finset.range n_periods, coupon / (1 + period_rate) ^ (t + 1))
    + face_value / (1 + period_rate) ^ n_periods

/-- The 1-basis-point finite-difference bump `0.0001` hardcoded in file 3. -/
def bump : ℚ := 1 / 10000

/-- Python `convexity(face_value, coupon_rate, ytm, years_to_maturity)`
(file 3): central finite difference `(price_up + price_down - 2 * price_base)
* 100 / (price_base * 0.0001 ** 2)` where the three prices come from
`calculate_bond_price` at `ytm + 0.0001`, `ytm` and `ytm - 0.0001` with the
default `periods_per_year = 2`. When the denominator `price_base * 0.0001**2`
is zero (exactly when `price_base == 0`) the Python float division raises
`ZeroDivisionError`, modelled as `none`. -/
def convexity (face_value coupon_rate ytm : ℚ) (years_to_maturity : ℕ) : Option ℚ :=
  let price_up := calculate_bond_price face_value coupon_rate (ytm + bump) years_to_maturity 2
  let price_base := calculate_bond_price face_value coupon_rate ytm years_to_maturity 2
  let price_down := calculate_bond_price face_value coupon_rate (ytm - bump) years_to_maturity 2
  if price_base * bump ^ 2 = 0 then none
  else some ((price_up + price_down - 2 * price_base) * 100 / (price_base * bump ^ 2))

/-! ### File 4: fixed income analytics dashboard (repo, forward price) -/

/-- Python `calculate_repo_transaction(principal, repo_rate, days)` (file 4):
returns `0.0` when `days <= 0 or repo_rate < 0 or principal <= 0`, otherwise
`principal + principal * repo_rate * days / 360`. -/
def calculate_repo_transaction (principal repo_rate days : ℚ) : ℚ :=
  if days ≤ 0 ∨ repo_rate < 0 ∨ principal ≤ 0 then 0
  else principal + principal * repo_rate * days / 360

/-- Python `calculate_forward_price(dirty_price, repo_rate, days_to_forward,
coupon=0, days_to_coupon=0)` (file 4): returns `dirty_price` when
`days_to_forward <= 0`; otherwise the coupon forward value
`coupon * (1 + repo_rate * (days_to_forward - days_to_coupon) / 360)` is
subtracted exactly when `days_to_coupon < days_to_forward and
days_to_coupon > 0`, from `dirty_price * (1 + repo_rate * days_to_forward /
360)`. -/
def calculate_forward_price (dirty_price repo_rate days_to_forward coupon days_to_coupon : ℚ) :
    ℚ :=
  if days_to_forward ≤ 0 then dirty_price
  else
    let coupon_fv :=
      if days_to_coupon < days_to_forward ∧ 0 < days_to_coupon then
        coupon * (1 + repo_rate * (days_to_forward - days_to_coupon) / 360)
      else 0
    dirty_price * (1 + repo_rate * days_to_forward / 360) - coupon_fv

/-! ### Theorems -/

/-- Claim C3: `calculate_forward_price` returns `dirty_price` unchanged when
`days_to_forward <= 0`; otherwise it returns `dirty_price * (1 + repo_rate *
days_to_forward / 360)`, minus the forward-valued coupon `coupon * (1 +
repo_rate * (days_to_forward - days_to_coupon) / 360)` exactly when
`0 < days_to_coupon < days_to_forward`, and minus nothing otherwise. -/
theorem calculate_forward_price_cases (dp rr dtf c dtc : ℚ) :
    (dtf ≤ 0 → calculate_forward_price dp rr dtf c dtc = dp) ∧
    (0 < dtc → dtc < dtf →
      calculate_forward_price dp rr dtf c dtc =
        dp * (1 + rr * dtf / 360) - c * (1 + rr * (dtf - dtc) / 360)) ∧
    (0 < dtf → ¬(0 < dtc ∧ dtc < dtf) →
      calculate_forward_price dp rr dtf c dtc = dp * (1 + rr * dtf / 360)) := by
  refine ⟨fun h => ?_, fun h1 h2 => ?_, fun h1 h2 => ?_⟩
  · rw [calculate_forward_price, if_pos h]
  · have hpos : ¬ dtf ≤ 0 := not_le.mpr (h1.trans h2)
    rw [calculate_forward_price, if_neg hpos]
    simp only [if_pos (And.intro h2 h1)]
  · have hneg : ¬(dtc < dtf ∧ 0 < dtc) := fun ⟨a, b⟩ => h2 ⟨b, a⟩
    rw [calculate_forward_price, if_neg (not_le.mpr h1)]
    simp only [if_neg hneg, sub_zero]

/-- Witness for C3: the three branches at concrete inputs. -/
theorem calculate_forward_price_cases_witness :
    ((-5 : ℚ) ≤ 0 ∧ calculate_forward_price 100 (1/10) (-5) 7 3 = 100) ∧
    ((0 : ℚ) < 30 ∧ (30 : ℚ) < 90 ∧
      calculate_forward_price 100 (1/10) 90 2 30 =
        100 * (1 + (1/10) * 90 / 360) - 2 * (1 + (1/10) * (90 - 30) / 360)) ∧
    ((0 : ℚ) < 90 ∧
      calculate_forward_price 100 (1/10) 90 2 0 = 100 * (1 + (1/10) * 90 / 360)) := by
  refine ⟨⟨by norm_num, (calculate_forward_price_cases 100 (1/10) (-5) 7 3).1 (by norm_num)⟩,
    ⟨by norm_num, by norm_num,
      (calculate_forward_price_cases 100 (1/10) 90 2 30).2.1 (by norm_num) (by norm_num)⟩,
    ⟨by norm_num,
      (calculate_forward_price_cases 100 (1/10) 90 2 0).2.2 (by norm_num) (by norm_num)⟩⟩

/-- Claim C7: for `principal > 0`, `days > 0` and `repo_rate >= 0`,
`calculate_repo_transaction` returns `principal * (1 + repo_rate * days /
360)`; for non-positive principal, non-positive days or negative repo rate it
returns `0` without error. -/
theorem calculate_repo_transaction_spec (p r d : ℚ) :
    (0 < p → 0 ≤ r → 0 < d → calculate_repo_transaction p r d = p * (1 + r * d / 360)) ∧
    ((p ≤ 0 ∨ d ≤ 0 ∨ r < 0) → calculate_repo_transaction p r d = 0) := by
  constructor
  · intro hp hr hd
    have hcond : ¬(d ≤ 0 ∨ r < 0 ∨ p ≤ 0) := by push_neg; exact ⟨hd, hr, hp⟩
    rw [calculate_repo_transaction, if_neg hcond]; ring
  · intro h
    rw [calculate_repo_transaction, if_pos (by tauto)]

/-- Witness for C7: Scenario D of the spec, `repo_repayment(1_000_000, 0.035,
30) = 3008750/3 ≈ 1,002,916.67`. -/
theorem calculate_repo_transaction_spec_witness :
    calculate_repo_transaction 1000000 (7/200) 30 = 3008750/3 ∧
    calculate_repo_transaction (-4) (7/200) 30 = 0 := by
  constructor
  · have h := (calculate_repo_transaction_spec 1000000 (7/200) 30).1
      (by norm_num) (by norm_num) (by norm_num)
    rw [h]; norm_num
  · exact (calculate_repo_transaction_spec (-4) (7/200) 30).2 (by norm_num)

/-- Claim C9: the bond pricer `bond_price` of the valuation dashboard (file 2)
and `calculate_bond_price` of the analytics dashboard (file 3) return the same
price for every input, and in particular the Python default
`periods_per_year = 2` of `calculate_bond_price` agrees with `bond_price`
called with `comp_per_year = 2`. -/
theorem calculate_bond_price_eq_bond_price (fv cr ytm : ℚ) (T m : ℕ) :
    calculate_bond_price fv cr ytm T m = bond_price fv cr ytm T m ∧
    calculate_bond_price fv cr ytm T 2 = bond_price fv cr ytm T 2 :=
  ⟨rfl, rfl⟩

/-- Claim C10: the forward price with a zero coupon amount equals the repo
repayment on the same terms, for positive dirty price, nonnegative repo rate
and positive days, for every `days_to_coupon`. -/
theorem forward_price_zero_coupon_eq_repo (dp rr d dtc : ℚ)
    (hdp : 0 < dp) (hrr : 0 ≤ rr) (hd : 0 < d) :
    calculate_forward_price dp rr d 0 dtc = calculate_repo_transaction dp rr d := by
  have hcond : ¬(d ≤ 0 ∨ rr < 0 ∨ dp ≤ 0) := by push_neg; exact ⟨hd, hrr, hdp⟩
  rw [calculate_forward_price, if_neg (not_le.mpr hd),
    calculate_repo_transaction, if_neg hcond]
  split_ifs <;> ring

/-- Witness for C10 at a concrete repo transaction. -/
theorem forward_price_zero_coupon_eq_repo_witness :
    (0 : ℚ) < 100 ∧ (0 : ℚ) ≤ 1/20 ∧ (0 : ℚ) < 30 ∧
    calculate_forward_price 100 (1/20) 30 0 10 = calculate_repo_transaction 100 (1/20) 30 :=
  ⟨by norm_num, by norm_num, by norm_num,
    forward_price_zero_coupon_eq_repo 100 (1/20) 30 10 (by norm_num) (by norm_num) (by norm_num)⟩

/-- Claim C2: for every bond with all-positive cash flows (`face_value > 0`,
`coupon_rate ≥ 0`, at least one period), the bond price is strictly decreasing
in the yield, over the range where the per-period discount base
`1 + rate / m` is positive. -/
theorem bond_price_strictly_decreasing (fv cr y1 y2 : ℚ) (T m : ℕ)
    (hfv : 0 < fv) (hcr : 0 ≤ cr) (hn : 1 ≤ T * m)
    (hb1 : 0 < 1 + y1 / m) (hy : y1 < y2) :
    bond_price fv cr y2 T m < bond_price fv cr y1 T m := by
  have hm0 : m ≠ 0 := by rintro rfl; simp at hn
  have hm : 0 < (m : ℚ) := by exact_mod_cast Nat.pos_of_ne_zero hm0
  have hb : 1 + y1 / m < 1 + y2 / m :=
    add_lt_add_left ((div_lt_div_iff_of_pos_right hm).mpr hy) 1
  have hb2 : 0 < 1 + y2 / m := hb1.trans hb
  have hc : 0 ≤ fv * cr / m := div_nonneg (mul_nonneg hfv.le hcr) hm.le
  have hTm : T * m ≠ 0 := by omega
  rw [bond_price, bond_price]
  apply add_lt_add_of_le_of_lt
  · refine Finset.sum_le_sum fun i _ => ?_
    rw [div_le_div_iff₀ (pow_pos hb2 _) (pow_pos hb1 _)]
    exact mul_le_mul_of_nonneg_left (pow_le_pow_left₀ hb1.le hb.le _) hc
  · rw [div_lt_div_iff₀ (pow_pos hb2 _) (pow_pos hb1 _)]
    exact mul_lt_mul_of_pos_left (pow_lt_pow_left₀ hb hb1.le hTm) hfv

/-- Witness for C2 at a concrete bond: price at 6 percent is below price at
5 percent. -/
theorem bond_price_strictly_decreasing_witness :
    (0 : ℚ) < 1000 ∧ (0 : ℚ) ≤ 1/20 ∧ 1 ≤ 5 * 2 ∧ (0 : ℚ) < 1 + (1/20) / 2 ∧
      (1/20 : ℚ) < 3/50 ∧
    bond_price 1000 (1/20) (3/50) 5 2 < bond_price 1000 (1/20) (1/20) 5 2 :=
  ⟨by norm_num, by norm_num, by norm_num, by norm_num, by norm_num,
    bond_price_strictly_decreasing 1000 (1/20) (1/20) (3/50) 5 2
      (by norm_num) (by norm_num) (by norm_num) (by norm_num) (by norm_num)⟩

/-- Claim C6: `convexity` fails (the float division raises, modelled `none`)
when the base price is zero, rather than returning an infinite or
not-a-number value; when the base price is nonzero it returns
`(price(ytm+1bp) + price(ytm-1bp) - 2*price(ytm)) * 100 / (price(ytm) *
(1bp)^2)` with `1bp = 0.0001`. -/
theorem convexity_spec (fv cr ytm : ℚ) (T : ℕ) :
    (calculate_bond_price fv cr ytm T 2 = 0 → convexity fv cr ytm T = none) ∧
    (calculate_bond_price fv cr ytm T 2 ≠ 0 →
      convexity fv cr ytm T = some
        ((calculate_bond_price fv cr (ytm + 1/10000) T 2
            + calculate_bond_price fv cr (ytm - 1/10000) T 2
            - 2 * calculate_bond_price fv cr ytm T 2) * 100
          / (calculate_bond_price fv cr ytm T 2 * (1/10000 : ℚ) ^ 2))) := by
  constructor
  · intro h
    rw [convexity, if_pos (by rw [h]; ring)]
  · intro h
    have hbump : (bump : ℚ) ^ 2 ≠ 0 := by rw [bump]; norm_num
    rw [convexity, if_neg (mul_ne_zero h hbump)]
    rw [bump]

/-- Witness for C6: a zero-face-value bond has base price zero and `convexity`
fails; a plain bond has nonzero base price and `convexity` returns the central
finite difference. -/
theorem convexity_spec_witness :
    (calculate_bond_price 0 (1/20) (1/20) 1 2 = 0 ∧ convexity 0 (1/20) (1/20) 1 = none) ∧
    (calculate_bond_price 100 0 0 1 2 ≠ 0 ∧
      convexity 100 0 0 1 = some
        ((calculate_bond_price 100 0 (0 + 1/10000) 1 2
            + calculate_bond_price 100 0 (0 - 1/10000) 1 2
            - 2 * calculate_bond_price 100 0 0 1 2) * 100
          / (calculate_bond_price 100 0 0 1 2 * (1/10000 : ℚ) ^ 2))) := by
  have h0 : calculate_bond_price 0 (1/20) (1/20) 1 2 = 0 := by
    rw [calculate_bond_price]
    norm_num [Finset.sum_range_succ]
  have h1 : calculate_bond_price 100 0 0 1 2 ≠ 0 := by
    rw [calculate_bond_price]
    norm_num [Finset.sum_range_succ]
  exact ⟨⟨h0, (convexity_spec 0 (1/20) (1/20) 1).1 h0⟩,
    ⟨h1, (convexity_spec 100 0 0 1).2 h1⟩⟩

/-- Counterexample to C4: at `settlement_date = 0 < last_coupon_date = 10`
(with `next_coupon_date = 20`), the claim requires a failure, but
`accrued_interest` performs no date validation and returns the negative value
`-25`. -/
theorem accrued_interest_no_validation_counterexample :
    (0 : ℤ) < 10 ∧ accrued_interest 1000 (1/20) 0 10 20 2 = some (-25) := by
  constructor
  · norm_num
  · rw [accrued_interest]
    norm_num

/-- Claim C4 as amended: `accrued_interest` fails (Python
`ZeroDivisionError`, modelled `none`) exactly when `days_in_period == 0`,
that is `next_coupon = last_coupon` (given a nonzero `periods_per_year`);
for every other input — including `settlement < last_coupon` and
`next_coupon < last_coupon`, which are not validated — it returns
`coupon_payment * (days_accrued / days_in_period)` with `coupon_payment =
face_value * coupon_rate / periods_per_year`. -/
theorem accrued_interest_spec (fv cr : ℚ) (s l nc : ℤ) (m : ℕ) (hm : m ≠ 0) :
    (nc = l → accrued_interest fv cr s l nc m = none) ∧
    (nc ≠ l → accrued_interest fv cr s l nc m =
      some ((fv * cr / m) * (((s - l : ℤ) : ℚ) / ((nc - l : ℤ) : ℚ)))) := by
  constructor
  · intro h
    rw [accrued_interest, if_neg hm, if_pos (by rw [h, sub_self])]
  · intro h
    rw [accrued_interest, if_neg hm, if_neg (sub_ne_zero_of_ne h)]

/-- Witness for the amended C4 at concrete dates: a settlement halfway through
the coupon period accrues half the coupon payment, and a degenerate period
fails. -/
theorem accrued_interest_spec_witness :
    ((20 : ℤ) ≠ 10 ∧ accrued_interest 1000 (1/20) 15 10 20 2 =
      some ((1000 * (1/20) / 2) * (((15 - 10 : ℤ) : ℚ) / ((20 - 10 : ℤ) : ℚ)))) ∧
    ((10 : ℤ) = 10 ∧ accrued_interest 1000 (1/20) 15 10 10 2 = none) :=
  ⟨⟨by norm_num, (accrued_interest_spec 1000 (1/20) 15 10 20 2 (by norm_num)).2 (by norm_num)⟩,
    ⟨rfl, (accrued_interest_spec 1000 (1/20) 15 10 10 2 (by norm_num)).1 rfl⟩⟩

/-- Counterexample to C5: with `years_to_maturity = 3/5` and
`periods_per_year = 1` the claimed period count is `N = round(3/5) = 1 > 0`,
so the claim requires a one-flow schedule, but the code truncates
(`int(3/5) = 0`), builds an empty list and fails on `cash_flows[-1]`
(`IndexError`, modelled `none`). -/
theorem bond_valuation_round_counterexample :
    round ((3/5 : ℚ) * (1 : ℕ)) = 1 ∧ bond_valuation (1/20) 1000 (1/20) 1 (3/5) = none := by
  constructor
  · norm_num [round_eq]
  · rw [bond_valuation]
    norm_num [pyInt]

/-- Claim C5 as amended: the period count is `N = int(periods_per_year *
years_to_maturity)` (truncation toward zero, not rounding). The schedule
construction fails when `N ≤ 0` (the final-flow update hits an empty list);
when `N > 0` it produces `N` cash flows of `coupon_rate * face_value /
periods_per_year` each, with the final flow incremented by `face_value`. -/
theorem bond_valuation_schedule (coupon fv r : ℚ) (m : ℕ) (T : ℚ) :
    (pyInt (T * m) ≤ 0 → bond_valuation coupon fv r m T = none) ∧
    (0 < pyInt (T * m) →
      (bond_valuation coupon fv r m T).map Prod.snd =
        some (List.replicate ((pyInt (T * m)).toNat - 1) (coupon * fv / m)
          ++ [coupon * fv / m + fv]) ∧
      (bond_valuation coupon fv r m T).map (fun p => p.2.length) =
        some (pyInt (T * m)).toNat) := by
  constructor
  · intro h
    rw [bond_valuation, if_pos h]
  · intro h
    simp only [bond_valuation, if_neg (not_le.mpr h), Option.map_some']
    refine ⟨trivial, ?_⟩
    simp only [List.length_append, List.length_replicate, List.length_singleton]
    congr 1
    omega

/-- Witness for the amended C5: a 5-year semiannual bond yields ten cash
flows of 25 with the last one 1025. -/
theorem bond_valuation_schedule_witness :
    0 < pyInt ((5 : ℚ) * (2 : ℕ)) ∧
    (bond_valuation (1/20) 1000 (3/50) 2 5).map Prod.snd =
      some (List.replicate ((pyInt ((5 : ℚ) * (2 : ℕ))).toNat - 1)
          ((1/20 : ℚ) * 1000 / ((2 : ℕ) : ℚ))
        ++ [(1/20 : ℚ) * 1000 / ((2 : ℕ) : ℚ) + 1000]) ∧
    (bond_valuation (1/20) 1000 (3/50) 2 5).map (fun p => p.2.length) =
      some (pyInt ((5 : ℚ) * (2 : ℕ))).toNat := by
  have h : 0 < pyInt ((5 : ℚ) * (2 : ℕ)) := by norm_num [pyInt]
  exact ⟨h, (bond_valuation_schedule (1/20) 1000 (3/50) 2 5).2 h⟩

/-- Helper: the scipy secant solver on a constant objective hits the
`q1 == q0` test with `p1 != p0` on its first iteration and raises the
zero-derivative failure, for every starting point and positive iteration
budget. The two starting points always differ: they coincide only at
`x0 = -1` in the nonnegative branch and `x0 = 1` in the negative branch,
both of which contradict the branch condition. -/
theorem scipy_newton_const (c x0 : ℚ) (maxiter : ℕ) (hm : maxiter ≠ 0) :
    scipy_newton (fun _ => c) x0 maxiter = Except.error SolverError.zeroDerivative := by
  obtain ⟨N, rfl⟩ := Nat.exists_eq_succ_of_ne_zero hm
  have hp : (if 0 ≤ x0 * (1 + secant_eps) then x0 * (1 + secant_eps) + secant_eps
      else x0 * (1 + secant_eps) - secant_eps) ≠ x0 := by
    rw [secant_eps]
    split_ifs with h
    · intro he
      have hx : x0 = -1 := by linarith
      rw [hx] at h
      norm_num at h
    · intro he
      have hx : x0 = 1 := by linarith
      rw [hx] at h
      norm_num at h
  simp only [scipy_newton]
  rw [if_neg (lt_irrefl _)]
  rw [secant_step]
  rw [if_pos rfl, if_pos hp]

/-- Counterexample to C1: on a degenerate bond (`face_value = 0`) the price
function is constant, the secant solver hits the zero-derivative failure
immediately, and `calculate_ytm` returns the bare NaN sentinel (`none`) — not
a `YieldSolveResult` with a `converged` flag, which exists nowhere in the
code. -/
theorem calculate_ytm_nan_counterexample :
    scipy_newton (fun y => bond_price 0 0 y 4 2 - 2) 0 100
      = Except.error SolverError.zeroDerivative ∧
    calculate_ytm 0 0 2 4 2 = none := by
  have hf : (fun y : ℚ => bond_price 0 0 y 4 2 - 2) = fun _ : ℚ => (-2 : ℚ) := by
    funext y
    rw [bond_price]
    norm_num
  have hs : scipy_newton (fun y : ℚ => bond_price 0 0 y 4 2 - 2) 0 100
      = Except.error SolverError.zeroDerivative := by
    rw [hf]
    exact scipy_newton_const (-2) 0 100 (by norm_num)
  refine ⟨hs, ?_⟩
  rw [calculate_ytm, hs]
  rfl

/-- Claim C1 as amended: when the solver fails — it exhausts `maxiter`
iterations without meeting tolerance, or hits a numerically zero derivative
(flat secant) — `calculate_ytm` catches the exception and returns NaN
(modelled `none`), an explicit sentinel rather than a propagated exception;
no `YieldSolveResult` structure with a `converged` flag exists in the code. -/
theorem calculate_ytm_failure_is_nan (fv cr price : ℚ) (T m : ℕ) (e : SolverError)
    (h : scipy_newton (fun y => bond_price fv cr y T m - price) cr 100 = Except.error e) :
    calculate_ytm fv cr price T m = none := by
  rw [calculate_ytm, h]
  rfl

/-- Witness for the amended C1 at a concrete failing solve. -/
theorem calculate_ytm_failure_is_nan_witness :
    scipy_newton (fun y => bond_price 0 0 y 5 2 - 1) 0 100
      = Except.error SolverError.zeroDerivative ∧
    calculate_ytm 0 0 1 5 2 = none := by
  have hf : (fun y : ℚ => bond_price 0 0 y 5 2 - 1) = fun _ : ℚ => (-1 : ℚ) := by
    funext y
    rw [bond_price]
    norm_num
  have hs : scipy_newton (fun y : ℚ => bond_price 0 0 y 5 2 - 1) 0 100
      = Except.error SolverError.zeroDerivative := by
    rw [hf]
    exact scipy_newton_const (-1) 0 100 (by norm_num)
  exact ⟨hs, calculate_ytm_failure_is_nan 0 0 1 5 2 SolverError.zeroDerivative hs⟩

/-- Claim C8: `present_value(future_value(PV, r, T), r, T) = PV` as three
separate round-trip laws — discrete (with compounding frequency `m`, on the
range where the discount base `1 + r/m` is positive), continuous, and simple
(where the simple growth factor `1 + r*T` is nonzero) — exact in this model,
within floating tolerance in the Python code. -/
theorem present_future_value_round_trip (PV r m T : ℝ) :
    (0 < 1 + r / m → present_value (future_value PV r m T) r m T = PV) ∧
    present_value_continuous (future_value_continuous PV r T) r T = PV ∧
    (1 + r * T ≠ 0 → present_value_simple (future_value_simple PV r T) r T = PV) := by
  refine ⟨fun h => ?_, ?_, fun h => ?_⟩
  · rw [future_value, present_value]
    exact mul_div_cancel_right₀ PV (ne_of_gt (Real.rpow_pos_of_pos h (T * m)))
  · rw [future_value_continuous, present_value_continuous, mul_assoc, ← Real.exp_add,
      add_neg_cancel, Real.exp_zero, mul_one]
  · rw [future_value_simple, present_value_simple]
    field_simp

/-- Witness for C8 at `PV = 100`, `r = 1/20`, `m = 2`, `T = 3`. -/
theorem present_future_value_round_trip_witness :
    (0 < 1 + (1/20 : ℝ) / 2 ∧ 1 + (1/20 : ℝ) * 3 ≠ 0) ∧
    present_value (future_value 100 (1/20) 2 3) (1/20) 2 3 = 100 ∧
    present_value_continuous (future_value_continuous 100 (1/20) 3) (1/20) 3 = 100 ∧
    present_value_simple (future_value_simple 100 (1/20) 3) (1/20) 3 = 100 :=
  ⟨⟨by norm_num, by norm_num⟩,
    (present_future_value_round_trip 100 (1/20) 2 3).1 (by norm_num),
    (present_future_value_round_trip 100 (1/20) 2 3).2.1,
    (present_future_value_round_trip 100 (1/20) 2 3).2.2 (by norm_num)⟩
